import Mathlib

/- Verification development for a fixed-duration CPU/GPU stress program.

   The program launches `NUM_CPU_THREADS` CPU worker threads and one GPU worker
   thread; each worker allocates two square random matrices once, then runs a
   matrix-multiply busy loop until a locally computed deadline
   (time-after-setup + TEST_DURATION_SECONDS), and the coordinator joins all
   workers before printing a completion message.

   Modelling conventions of this shallow embedding:
   - Wall-clock time is an integer clock (`Int`).  Setup actions (printing the
     start message, allocating the two matrices) take a nonnegative number of
     ticks given by parameters; multiply iteration `i` advances the clock by
     `mulCost i + 1` ticks, i.e. every iteration takes at least one tick, so
     time strictly advances in the loop.
   - Matrices (`Tensor`) carry a dtype, a shape and an entry function over ℚ;
     random filling is modelled by an entry function supplied as a parameter.
   - Fallible library calls return `Except String`. `np.random.rand` and
     `tf.random.normal` reject negative dimensions (as numpy/TensorFlow do) and
     accept zero dimensions, producing an empty matrix.
   - The busy loop is executed with explicit fuel `(deadline - start).toNat`,
     which is always sufficient because every iteration advances the clock by
     at least one tick; this keeps the loop a computable structural recursion.
   - The coordinator is modelled by its event trace (spawn/join/print events in
     program order) plus a timestamp model in which the time after joining all
     workers is the maximum of the coordinator's own start time and every
     worker's return time. -/

def TEST_DURATION_SECONDS : Int := 2 * 60 * 60

def TENSOR_SIZE : Int := 2048

def NUM_CPU_THREADS : Nat := 4

inductive DType where
  | float64
  | float32
  deriving DecidableEq

structure Tensor where
  dtype : DType
  rows : Nat
  cols : Nat
  data : Nat → Nat → ℚ

def NEG_DIM_MSG : String := "negative dimensions are not allowed"

def TF_NEG_DIM_MSG : String := "InvalidArgumentError: negative dimensions are not allowed"

def SHAPE_ERR_MSG : String := "shapes not aligned"

def TF_SHAPE_ERR_MSG : String := "InvalidArgumentError: matrix shapes or dtypes incompatible"

def CPU_START_MSG : String := "[CPU] Starting CPU load..."

def GPU_START_MSG : String := "[GPU] Starting GPU load..."

def START_MSG : String := "Starting AI-style CPU/GPU stress test for 2 hours..."

def DONE_MSG : String := "Load test completed."

/-- `np.random.rand(r, c)`: rejects negative dimensions, otherwise yields a
float64 matrix of shape `r × c` whose entries are the supplied random fill. -/
def np_random_rand (r c : Int) (fill : Nat → Nat → ℚ) : Except String Tensor :=
  if r < 0 ∨ c < 0 then .error NEG_DIM_MSG
  else .ok { dtype := .float64, rows := r.toNat, cols := c.toNat, data := fill }

/-- `tf.random.normal((r, c))`: rejects negative dimensions, otherwise yields a
float32 matrix of shape `r × c` whose entries are the supplied random fill. -/
def tf_random_normal (r c : Int) (fill : Nat → Nat → ℚ) : Except String Tensor :=
  if r < 0 ∨ c < 0 then .error TF_NEG_DIM_MSG
  else .ok { dtype := .float32, rows := r.toNat, cols := c.toNat, data := fill }

/-- Entrywise matrix product data: entry `(i, j)` of the product of `a` and
`b`, summing over the inner dimension `a.cols`. -/
def matProd (a b : Tensor) : Nat → Nat → ℚ :=
  fun i j => ∑ k ∈ Finset.range a.cols, a.data i k * b.data k j

/-- `np.dot(a, b)` on 2-D arrays: requires the inner dimensions to agree. -/
def np_dot (a b : Tensor) : Except String Tensor :=
  if a.cols = b.rows then
    .ok { dtype := a.dtype, rows := a.rows, cols := b.cols, data := matProd a b }
  else .error SHAPE_ERR_MSG

/-- `tf.matmul(a, b)`: requires matching dtypes and agreeing inner dims. -/
def tf_matmul (a b : Tensor) : Except String Tensor :=
  if a.dtype = b.dtype ∧ a.cols = b.rows then
    .ok { dtype := a.dtype, rows := a.rows, cols := b.cols, data := matProd a b }
  else .error TF_SHAPE_ERR_MSG

/-- `@tf.function` tracing wrapper: builds a traced compute graph for `f` once;
semantically the traced step computes exactly what `f` computes. -/
def tf_function {α : Type} (f : α) : α := f

/-- The traced GPU multiply step (`gpu_stress_step` in the source), built once
at module level and invoked repeatedly inside the GPU worker's loop. -/
def gpu_stress_step : Tensor → Tensor → Except String Tensor :=
  tf_function fun a b => tf_matmul a b

inductive Device where
  | gpu0
  | cpuFallback
  deriving DecidableEq

/-- `tf.device('/GPU:0')`: selects the GPU when available, else falls back. -/
def tf_device (avail : Bool) : Device :=
  if avail then .gpu0 else .cpuFallback

/-- Observable outcome of one worker: the lines it printed, the tensors it
allocated (in order), its selected device (GPU worker only), the time at which
it entered the loop, its computed deadline, the number of multiply iterations
it executed, the time at which it returned, and the matrices it holds when the
loop exits. -/
structure WorkerRun where
  printed : List String
  tensors : List Tensor
  device : Option Device
  loopStart : Int
  deadline : Int
  iterations : Nat
  returnTime : Int
  finalA : Tensor
  finalB : Tensor

/-- The multiply busy loop `while time.time() < end_time: _ = mult(a, b)`,
with explicit fuel.  State: iteration counter `i`, clock `t`, and the worker's
matrix pair `ab` (read by the multiply, whose result is discarded).  Iteration
`i` advances the clock by `mulCost i + 1` ticks. -/
def stressLoopAux (mult : Tensor → Tensor → Except String Tensor)
    (mulCost : Nat → Nat) (endTime : Int) :
    Nat → Nat → Int → Tensor × Tensor → Nat × Int × Tensor × Tensor
  | 0, i, t, ab => (i, t, ab)
  | fuel + 1, i, t, ab =>
    if t < endTime then
      let _ := mult ab.1 ab.2
      stressLoopAux mult mulCost endTime fuel (i + 1)
        (t + ((mulCost i + 1 : Nat) : Int)) ab
    else (i, t, ab)

/-- The multiply busy loop started at time `t0` against deadline `endTime`.
The fuel `(endTime - t0).toNat` is always sufficient because every iteration
advances the clock by at least one tick. -/
def stressLoop (mult : Tensor → Tensor → Except String Tensor)
    (mulCost : Nat → Nat) (endTime t0 : Int) (a b : Tensor) :
    Nat × Int × Tensor × Tensor :=
  stressLoopAux mult mulCost endTime (endTime - t0).toNat 0 t0 (a, b)

/-- The CPU worker `cpu_stress`: print the start message, allocate two random
float64 `size × size` matrices, compute `end_time = time.time() + duration`
(the clock then reads `t0 + printCost + allocCost`), and run the `np.dot` busy
loop until the deadline. -/
def cpu_stress (size duration t0 : Int) (printCost allocCost : Nat)
    (mulCost : Nat → Nat) (fA fB : Nat → Nat → ℚ) : Except String WorkerRun :=
  match np_random_rand size size fA, np_random_rand size size fB with
  | .error e, _ => .error e
  | _, .error e => .error e
  | .ok a, .ok b =>
    let tReady : Int := t0 + printCost + allocCost
    let endTime : Int := tReady + duration
    let r := stressLoop np_dot mulCost endTime tReady a b
    .ok { printed := [CPU_START_MSG], tensors := [a, b], device := none,
          loopStart := tReady, deadline := endTime,
          iterations := r.1, returnTime := r.2.1,
          finalA := r.2.2.1, finalB := r.2.2.2 }

/-- The GPU worker `gpu_stress`: print the start message, select the device
(GPU with CPU fallback), allocate two random float32 `size × size` matrices,
compute `end_time = time.time() + duration`, and run the traced
`gpu_stress_step` busy loop until the deadline. -/
def gpu_stress (size duration : Int) (avail : Bool) (t0 : Int)
    (printCost allocCost : Nat) (mulCost : Nat → Nat)
    (fA fB : Nat → Nat → ℚ) : Except String WorkerRun :=
  match tf_random_normal size size fA, tf_random_normal size size fB with
  | .error e, _ => .error e
  | _, .error e => .error e
  | .ok a, .ok b =>
    let tReady : Int := t0 + printCost + allocCost
    let endTime : Int := tReady + duration
    let r := stressLoop gpu_stress_step mulCost endTime tReady a b
    .ok { printed := [GPU_START_MSG], tensors := [a, b],
          device := some (tf_device avail),
          loopStart := tReady, deadline := endTime,
          iterations := r.1, returnTime := r.2.1,
          finalA := r.2.2.1, finalB := r.2.2.2 }

/-- Per-worker execution environment: worker `w` is spawned at
`spawnTime w`, its setup costs are `printCost w` and `allocCost w`, its
multiply costs are `mulCost w`, and its random matrix entries are
`fillA w` / `fillB w`.  `gpuAvailable` is the shared hardware fact. -/
structure Env where
  t0 : Int
  spawnTime : Nat → Int
  printCost : Nat → Nat
  allocCost : Nat → Nat
  mulCost : Nat → Nat → Nat
  fillA : Nat → Nat → Nat → ℚ
  fillB : Nat → Nat → Nat → ℚ
  gpuAvailable : Bool

/-- The run of worker `w` under environment `env`: workers
`0, …, NUM_CPU_THREADS - 1` are CPU workers, worker `NUM_CPU_THREADS` is the
GPU worker.  Every worker is applied to the program's configured constants and
to its own private slice of the environment only. -/
def worker_run (env : Env) (w : Nat) : Except String WorkerRun :=
  if w < NUM_CPU_THREADS then
    cpu_stress TENSOR_SIZE TEST_DURATION_SECONDS (env.spawnTime w)
      (env.printCost w) (env.allocCost w) (env.mulCost w)
      (env.fillA w) (env.fillB w)
  else
    gpu_stress TENSOR_SIZE TEST_DURATION_SECONDS env.gpuAvailable
      (env.spawnTime w) (env.printCost w) (env.allocCost w) (env.mulCost w)
      (env.fillA w) (env.fillB w)

/-- Completion time of worker `w` (a thread that dies in setup completes at
its spawn time). -/
def workerReturn (env : Env) (w : Nat) : Int :=
  match worker_run env w with
  | .ok r => r.returnTime
  | .error _ => env.spawnTime w

/-- Lines printed by worker `w`. -/
def workerPrinted (env : Env) (w : Nat) : List String :=
  match worker_run env w with
  | .ok r => r.printed
  | .error _ => []

/-- Coordinator events of `main`, in program order. -/
inductive CoordEvent where
  | printStart
  | spawnCpu (i : Nat)
  | spawnGpu
  | joinCpu (i : Nat)
  | joinGpu
  | printDone
  deriving DecidableEq

def isSpawnEv : CoordEvent → Bool
  | .spawnCpu _ => true
  | .spawnGpu => true
  | _ => false

/-- The spawn event of worker `w`. -/
def spawnEv (w : Nat) : CoordEvent :=
  if w < NUM_CPU_THREADS then .spawnCpu w else .spawnGpu

/-- The join event of worker `w`. -/
def joinEv (w : Nat) : CoordEvent :=
  if w < NUM_CPU_THREADS then .joinCpu w else .joinGpu

/-- The coordinator's event trace, in program order: print the start banner,
start the CPU threads, start the GPU thread, join the CPU threads, join the
GPU thread, print the completion message. -/
def main_events : List CoordEvent :=
  [CoordEvent.printStart]
    ++ (List.range NUM_CPU_THREADS).map CoordEvent.spawnCpu
    ++ [CoordEvent.spawnGpu]
    ++ (List.range NUM_CPU_THREADS).map CoordEvent.joinCpu
    ++ [CoordEvent.joinGpu, CoordEvent.printDone]

/-- Coordinator time after joining every worker: the maximum of its own start
time and all worker completion times (each `t.join()` resumes the coordinator
no earlier than that worker's completion). -/
def joinAll (env : Env) : Int :=
  (List.range (NUM_CPU_THREADS + 1)).foldl
    (fun t w => max t (workerReturn env w)) env.t0

/-- Observable outcome of `main`: coordinator event trace, process stdout,
coordinator return time, and process exit code. -/
structure MainRun where
  coordEvents : List CoordEvent
  stdout : List String
  returnTime : Int
  exitCode : Nat

/-- The run of `main` under environment `env`.  Stdout consists of the start
banner, each worker's printed lines, and the completion message; `main` has no
failure path, so the exit code is 0. -/
def main_run (env : Env) : MainRun :=
  { coordEvents := main_events
    stdout := [START_MSG]
      ++ ((List.range (NUM_CPU_THREADS + 1)).map (workerPrinted env)).flatten
      ++ [DONE_MSG]
    returnTime := joinAll env
    exitCode := 0 }

def printedOf : Except String WorkerRun → List String
  | .ok r => r.printed
  | .error _ => []

def tensorsOf : Except String WorkerRun → List Tensor
  | .ok r => r.tensors
  | .error _ => []

def iterationsOf : Except String WorkerRun → Option Nat
  | .ok r => some r.iterations
  | .error _ => none

def retTimeOf : Except String WorkerRun → Option Int
  | .ok r => some r.returnTime
  | .error _ => none

def deadlineOf : Except String WorkerRun → Option Int
  | .ok r => some r.deadline
  | .error _ => none

def loopStartOf : Except String WorkerRun → Option Int
  | .ok r => some r.loopStart
  | .error _ => none

def finalPairOf : Except String WorkerRun → Option (Tensor × Tensor)
  | .ok r => some (r.finalA, r.finalB)
  | .error _ => none

def isOkRun : Except String WorkerRun → Bool
  | .ok _ => true
  | .error _ => false

def shapeOf : Except String Tensor → Option (Nat × Nat)
  | .ok t => some (t.rows, t.cols)
  | .error _ => none

def tensorMeta (t : Tensor) : DType × Nat × Nat :=
  (t.dtype, t.rows, t.cols)

/-- Two environments give worker `w` the same private inputs. -/
def agreesAt (env env' : Env) (w : Nat) : Prop :=
  env.spawnTime w = env'.spawnTime w ∧ env.printCost w = env'.printCost w ∧
  env.allocCost w = env'.allocCost w ∧ env.mulCost w = env'.mulCost w ∧
  env.fillA w = env'.fillA w ∧ env.fillB w = env'.fillB w ∧
  env.gpuAvailable = env'.gpuAvailable

def zfill : Nat → Nat → ℚ := fun _ _ => 0

def zcost : Nat → Nat := fun _ => 0

def T2 : Tensor := { dtype := .float64, rows := 2, cols := 2, data := zfill }

def envEx : Env :=
  { t0 := 0, spawnTime := fun _ => 0, printCost := fun _ => 0,
    allocCost := fun _ => 0, mulCost := fun _ _ => 0,
    fillA := fun _ _ _ => 0, fillB := fun _ _ _ => 0, gpuAvailable := false }

/-- Nonnegative dimensions make `np.random.rand` succeed with a float64 matrix. -/
theorem np_random_rand_ok (r c : Int) (fill : Nat → Nat → ℚ)
    (hr : 0 ≤ r) (hc : 0 ≤ c) :
    np_random_rand r c fill =
      .ok { dtype := .float64, rows := r.toNat, cols := c.toNat, data := fill } := by
  unfold np_random_rand
  rw [if_neg (by omega)]

/-- Nonnegative dimensions make `tf.random.normal` succeed with a float32 matrix. -/
theorem tf_random_normal_ok (r c : Int) (fill : Nat → Nat → ℚ)
    (hr : 0 ≤ r) (hc : 0 ≤ c) :
    tf_random_normal r c fill =
      .ok { dtype := .float32, rows := r.toNat, cols := c.toNat, data := fill } := by
  unfold tf_random_normal
  rw [if_neg (by omega)]

/-- With sufficient fuel, the busy loop only exits once the clock has reached
the deadline. -/
theorem stressLoopAux_time_ge (mult : Tensor → Tensor → Except String Tensor)
    (mulCost : Nat → Nat) (endTime : Int) (fuel : Nat) :
    ∀ (i : Nat) (t : Int) (ab : Tensor × Tensor),
      (endTime - t).toNat ≤ fuel →
      endTime ≤ (stressLoopAux mult mulCost endTime fuel i t ab).2.1 := by
  induction fuel with
  | zero =>
    intro i t ab h
    simp only [stressLoopAux]
    omega
  | succ n ih =>
    intro i t ab h
    by_cases hc : t < endTime
    · simpa [stressLoopAux, hc] using
        ih (i + 1) (t + ((mulCost i + 1 : Nat) : Int)) ab (by omega)
    · simp only [stressLoopAux, if_neg hc]
      omega

/-- The busy loop never turns the clock back. -/
theorem stressLoopAux_time_mono (mult : Tensor → Tensor → Except String Tensor)
    (mulCost : Nat → Nat) (endTime : Int) (fuel : Nat) :
    ∀ (i : Nat) (t : Int) (ab : Tensor × Tensor),
      t ≤ (stressLoopAux mult mulCost endTime fuel i t ab).2.1 := by
  induction fuel with
  | zero =>
    intro i t ab
    simp [stressLoopAux]
  | succ n ih =>
    intro i t ab
    by_cases hc : t < endTime
    · have := ih (i + 1) (t + ((mulCost i + 1 : Nat) : Int)) ab
      simp only [stressLoopAux, if_pos hc]
      omega
    · simp [stressLoopAux, hc]

/-- If every multiply iteration takes at most `eps` ticks and the clock starts
no later than `endTime + eps`, the loop exits no later than `endTime + eps`. -/
theorem stressLoopAux_time_le (mult : Tensor → Tensor → Except String Tensor)
    (mulCost : Nat → Nat) (endTime : Int) (eps : Nat)
    (hb : ∀ j, mulCost j + 1 ≤ eps) (fuel : Nat) :
    ∀ (i : Nat) (t : Int) (ab : Tensor × Tensor),
      t ≤ endTime + eps →
      (stressLoopAux mult mulCost endTime fuel i t ab).2.1 ≤ endTime + eps := by
  induction fuel with
  | zero =>
    intro i t ab h
    simpa [stressLoopAux] using h
  | succ n ih =>
    intro i t ab h
    by_cases hc : t < endTime
    · have hbi := hb i
      simp only [stressLoopAux, if_pos hc]
      exact ih (i + 1) (t + ((mulCost i + 1 : Nat) : Int)) ab (by omega)
    · simpa [stressLoopAux, hc] using h

/-- The busy loop returns exactly the matrix pair it was given: the repeated
multiply reads `a` and `b` but never replaces them. -/
theorem stressLoopAux_ab (mult : Tensor → Tensor → Except String Tensor)
    (mulCost : Nat → Nat) (endTime : Int) (fuel : Nat) :
    ∀ (i : Nat) (t : Int) (ab : Tensor × Tensor),
      (stressLoopAux mult mulCost endTime fuel i t ab).2.2 = ab := by
  induction fuel with
  | zero =>
    intro i t ab
    simp [stressLoopAux]
  | succ n ih =>
    intro i t ab
    by_cases hc : t < endTime
    · simpa [stressLoopAux, hc] using
        ih (i + 1) (t + ((mulCost i + 1 : Nat) : Int)) ab
    · simp [stressLoopAux, hc]

/-- The worker loop does not return before its deadline. -/
theorem stressLoop_time_ge (mult : Tensor → Tensor → Except String Tensor)
    (mulCost : Nat → Nat) (endTime t0 : Int) (a b : Tensor) :
    endTime ≤ (stressLoop mult mulCost endTime t0 a b).2.1 :=
  stressLoopAux_time_ge mult mulCost endTime (endTime - t0).toNat 0 t0 (a, b)
    (le_refl _)

/-- The worker loop does not return before its start time. -/
theorem stressLoop_time_mono (mult : Tensor → Tensor → Except String Tensor)
    (mulCost : Nat → Nat) (endTime t0 : Int) (a b : Tensor) :
    t0 ≤ (stressLoop mult mulCost endTime t0 a b).2.1 :=
  stressLoopAux_time_mono mult mulCost endTime (endTime - t0).toNat 0 t0 (a, b)

/-- Overrun bound for the worker loop. -/
theorem stressLoop_time_le (mult : Tensor → Tensor → Except String Tensor)
    (mulCost : Nat → Nat) (endTime t0 : Int) (a b : Tensor) (eps : Nat)
    (hb : ∀ j, mulCost j + 1 ≤ eps) (h : t0 ≤ endTime + eps) :
    (stressLoop mult mulCost endTime t0 a b).2.1 ≤ endTime + eps :=
  stressLoopAux_time_le mult mulCost endTime eps hb (endTime - t0).toNat
    0 t0 (a, b) h

/-- The worker loop preserves the worker's matrix pair. -/
theorem stressLoop_ab (mult : Tensor → Tensor → Except String Tensor)
    (mulCost : Nat → Nat) (endTime t0 : Int) (a b : Tensor) :
    (stressLoop mult mulCost endTime t0 a b).2.2 = (a, b) :=
  stressLoopAux_ab mult mulCost endTime (endTime - t0).toNat 0 t0 (a, b)

/-- A deadline that is not in the future makes the loop exit at once, with
zero iterations and no time spent. -/
theorem stressLoop_of_nonpos (mult : Tensor → Tensor → Except String Tensor)
    (mulCost : Nat → Nat) (endTime t0 : Int) (a b : Tensor)
    (h : endTime ≤ t0) :
    stressLoop mult mulCost endTime t0 a b = (0, t0, a, b) := by
  unfold stressLoop
  have hz : (endTime - t0).toNat = 0 := by omega
  rw [hz]
  rfl

/-- Normal form of a successful CPU worker run. -/
theorem cpu_stress_eq (size duration t0 : Int) (printCost allocCost : Nat)
    (mulCost : Nat → Nat) (fA fB : Nat → Nat → ℚ) (hs : 0 ≤ size) :
    cpu_stress size duration t0 printCost allocCost mulCost fA fB =
      .ok { printed := [CPU_START_MSG]
            tensors := [{ dtype := .float64, rows := size.toNat,
                          cols := size.toNat, data := fA },
                        { dtype := .float64, rows := size.toNat,
                          cols := size.toNat, data := fB }]
            device := none
            loopStart := t0 + printCost + allocCost
            deadline := t0 + printCost + allocCost + duration
            iterations := (stressLoop np_dot mulCost
              (t0 + printCost + allocCost + duration) (t0 + printCost + allocCost)
              { dtype := .float64, rows := size.toNat, cols := size.toNat, data := fA }
              { dtype := .float64, rows := size.toNat, cols := size.toNat, data := fB }).1
            returnTime := (stressLoop np_dot mulCost
              (t0 + printCost + allocCost + duration) (t0 + printCost + allocCost)
              { dtype := .float64, rows := size.toNat, cols := size.toNat, data := fA }
              { dtype := .float64, rows := size.toNat, cols := size.toNat, data := fB }).2.1
            finalA := (stressLoop np_dot mulCost
              (t0 + printCost + allocCost + duration) (t0 + printCost + allocCost)
              { dtype := .float64, rows := size.toNat, cols := size.toNat, data := fA }
              { dtype := .float64, rows := size.toNat, cols := size.toNat, data := fB }).2.2.1
            finalB := (stressLoop np_dot mulCost
              (t0 + printCost + allocCost + duration) (t0 + printCost + allocCost)
              { dtype := .float64, rows := size.toNat, cols := size.toNat, data := fA }
              { dtype := .float64, rows := size.toNat, cols := size.toNat, data := fB }).2.2.2 } := by
  unfold cpu_stress
  rw [np_random_rand_ok size size fA hs hs, np_random_rand_ok size size fB hs hs]

/-- Normal form of a successful GPU worker run. -/
theorem gpu_stress_eq (size duration : Int) (avail : Bool) (t0 : Int)
    (printCost allocCost : Nat) (mulCost : Nat → Nat)
    (fA fB : Nat → Nat → ℚ) (hs : 0 ≤ size) :
    gpu_stress size duration avail t0 printCost allocCost mulCost fA fB =
      .ok { printed := [GPU_START_MSG]
            tensors := [{ dtype := .float32, rows := size.toNat,
                          cols := size.toNat, data := fA },
                        { dtype := .float32, rows := size.toNat,
                          cols := size.toNat, data := fB }]
            device := some (tf_device avail)
            loopStart := t0 + printCost + allocCost
            deadline := t0 + printCost + allocCost + duration
            iterations := (stressLoop gpu_stress_step mulCost
              (t0 + printCost + allocCost + duration) (t0 + printCost + allocCost)
              { dtype := .float32, rows := size.toNat, cols := size.toNat, data := fA }
              { dtype := .float32, rows := size.toNat, cols := size.toNat, data := fB }).1
            returnTime := (stressLoop gpu_stress_step mulCost
              (t0 + printCost + allocCost + duration) (t0 + printCost + allocCost)
              { dtype := .float32, rows := size.toNat, cols := size.toNat, data := fA }
              { dtype := .float32, rows := size.toNat, cols := size.toNat, data := fB }).2.1
            finalA := (stressLoop gpu_stress_step mulCost
              (t0 + printCost + allocCost + duration) (t0 + printCost + allocCost)
              { dtype := .float32, rows := size.toNat, cols := size.toNat, data := fA }
              { dtype := .float32, rows := size.toNat, cols := size.toNat, data := fB }).2.2.1
            finalB := (stressLoop gpu_stress_step mulCost
              (t0 + printCost + allocCost + duration) (t0 + printCost + allocCost)
              { dtype := .float32, rows := size.toNat, cols := size.toNat, data := fA }
              { dtype := .float32, rows := size.toNat, cols := size.toNat, data := fB }).2.2.2 } := by
  unfold gpu_stress
  rw [tf_random_normal_ok size size fA hs hs, tf_random_normal_ok size size fB hs hs]

/-- Folding `max` over completion times never drops below the seed. -/
theorem le_foldl_max_init (f : Nat → Int) (l : List Nat) :
    ∀ t : Int, t ≤ l.foldl (fun acc x => max acc (f x)) t := by
  induction l with
  | nil =>
    intro t
    exact le_refl t
  | cons x xs ih =>
    intro t
    rw [List.foldl_cons]
    exact le_trans (le_max_left t (f x)) (ih (max t (f x)))

/-- Folding `max` over completion times dominates every listed completion. -/
theorem le_foldl_max_of_mem (f : Nat → Int) {w : Nat} {l : List Nat}
    (hw : w ∈ l) :
    ∀ t : Int, f w ≤ l.foldl (fun acc x => max acc (f x)) t := by
  induction hw with
  | head xs =>
    intro t
    rw [List.foldl_cons]
    exact le_trans (le_max_right t (f w)) (le_foldl_max_init f xs (max t (f w)))
  | tail y hmem ih =>
    intro t
    rw [List.foldl_cons]
    exact ih (max t (f y))

/-- Claim C4: for every configured matrix side length S > 0, a single multiply
step — CPU `np.dot` or the GPU traced `gpu_stress_step` — applied to two S×S
matrices produces a result matrix of shape S×S. -/
theorem multiply_shape_correct (S : Nat) (hS : 0 < S) (a b : Tensor)
    (ha1 : a.rows = S) (ha2 : a.cols = S) (hb1 : b.rows = S) (hb2 : b.cols = S) :
    shapeOf (np_dot a b) = some (S, S) ∧
    (a.dtype = b.dtype → shapeOf (gpu_stress_step a b) = some (S, S)) := by
  constructor
  · unfold np_dot
    rw [if_pos (by rw [ha2, hb1])]
    simp [shapeOf, ha1, hb2]
  · intro hd
    show shapeOf (tf_matmul a b) = some (S, S)
    unfold tf_matmul
    rw [if_pos ⟨hd, by rw [ha2, hb1]⟩]
    simp [shapeOf, ha1, hb2]

/-- Claim C4 witness: a single multiply of two concrete 2×2 matrices has
shape 2×2, for both the CPU and the GPU step. -/
theorem multiply_shape_correct_witness :
    shapeOf (np_dot T2 T2) = some (2, 2) ∧
    (T2.dtype = T2.dtype → shapeOf (gpu_stress_step T2 T2) = some (2, 2)) :=
  multiply_shape_correct 2 (by decide) T2 T2 rfl rfl rfl rfl

/-- Claim C6: the GPU multiply is wrapped in the traced step
`gpu_stress_step` (built once at module level and invoked repeatedly in the
GPU worker's loop), and on every pair of matrices of compatible shape the
traced step computes the same result as the direct `tf.matmul`. -/
theorem traced_step_refines_matmul (a b : Tensor)
    (hd : a.dtype = b.dtype) (hs : a.cols = b.rows) :
    gpu_stress_step a b = tf_matmul a b := rfl

/-- Claim C6 witness: the traced step agrees with the direct matmul on a
concrete compatible pair. -/
theorem traced_step_refines_matmul_witness :
    gpu_stress_step T2 T2 = tf_matmul T2 T2 :=
  traced_step_refines_matmul T2 T2 rfl rfl

/-- Claim C7: matrices are square with side length given by the configured
constant `TENSOR_SIZE = 2048`; the CPU worker's matrices are 64-bit floats and
the GPU worker's matrices are 32-bit floats. -/
theorem tensor_size_and_dtypes (t0 : Int) (printCost allocCost : Nat)
    (mulCost : Nat → Nat) (fA fB : Nat → Nat → ℚ) (avail : Bool) :
    TENSOR_SIZE = 2048 ∧
    (tensorsOf (cpu_stress TENSOR_SIZE TEST_DURATION_SECONDS t0 printCost
        allocCost mulCost fA fB)).map tensorMeta =
      [(DType.float64, 2048, 2048), (DType.float64, 2048, 2048)] ∧
    (tensorsOf (gpu_stress TENSOR_SIZE TEST_DURATION_SECONDS avail t0 printCost
        allocCost mulCost fA fB)).map tensorMeta =
      [(DType.float32, 2048, 2048), (DType.float32, 2048, 2048)] :=
  ⟨rfl, rfl, rfl⟩

/-- Claim C2 counterexample: the claim bounds a worker's return time by
T0 + D + eps with eps at most one iteration's multiply time; it fails because
the deadline is computed only after the start-message print and the matrix
allocations, whose duration is not covered by eps.  Concretely, with start
time T0 = 0, duration D = 1, print cost 1, allocation cost 4, and every
multiply iteration taking exactly 1 tick (so eps = 1 bounds every iteration),
the CPU worker returns at time 6, which exceeds T0 + D + eps = 2. -/
theorem bounded_overrun_cex :
    (∀ j, zcost j + 1 ≤ 1) ∧
    retTimeOf (cpu_stress 1 1 0 1 4 zcost zfill zfill) = some 6 ∧
    ¬((6 : Int) ≤ 0 + 1 + 1) := by
  refine ⟨fun j => le_refl 1, ?_, by decide⟩
  decide

/-- Claim C2 (amended): a worker started at T0 with duration D ≥ 0 and
per-iteration multiply times bounded by eps does not return before T0 + D and
returns no later than T0 + A + D + eps, where A is the worker's setup time
(start-message print plus matrix allocation) that precedes its locally
computed deadline; the deadline itself is the post-setup clock plus D. -/
theorem bounded_overrun_amended (size duration t0 : Int)
    (printCost allocCost eps : Nat) (mulCost : Nat → Nat)
    (fA fB : Nat → Nat → ℚ) (avail : Bool) (hs : 0 ≤ size)
    (hd : 0 ≤ duration) (he : ∀ j, mulCost j + 1 ≤ eps) :
    (deadlineOf (cpu_stress size duration t0 printCost allocCost mulCost fA fB) =
        some (t0 + printCost + allocCost + duration) ∧
      ∃ rt, retTimeOf (cpu_stress size duration t0 printCost allocCost mulCost fA fB) =
          some rt ∧ t0 + duration ≤ rt ∧
          rt ≤ t0 + printCost + allocCost + duration + eps) ∧
    (deadlineOf (gpu_stress size duration avail t0 printCost allocCost mulCost fA fB) =
        some (t0 + printCost + allocCost + duration) ∧
      ∃ rt, retTimeOf (gpu_stress size duration avail t0 printCost allocCost mulCost fA fB) =
          some rt ∧ t0 + duration ≤ rt ∧
          rt ≤ t0 + printCost + allocCost + duration + eps) := by
  constructor
  · rw [cpu_stress_eq size duration t0 printCost allocCost mulCost fA fB hs]
    simp only [deadlineOf, retTimeOf]
    refine ⟨trivial, _, rfl, ?_, ?_⟩
    · have := stressLoop_time_ge np_dot mulCost
        (t0 + printCost + allocCost + duration) (t0 + printCost + allocCost)
        { dtype := .float64, rows := size.toNat, cols := size.toNat, data := fA }
        { dtype := .float64, rows := size.toNat, cols := size.toNat, data := fB }
      omega
    · exact stressLoop_time_le np_dot mulCost
        (t0 + printCost + allocCost + duration) (t0 + printCost + allocCost)
        { dtype := .float64, rows := size.toNat, cols := size.toNat, data := fA }
        { dtype := .float64, rows := size.toNat, cols := size.toNat, data := fB }
        eps he (by omega)
  · rw [gpu_stress_eq size duration avail t0 printCost allocCost mulCost fA fB hs]
    simp only [deadlineOf, retTimeOf]
    refine ⟨trivial, _, rfl, ?_, ?_⟩
    · have := stressLoop_time_ge gpu_stress_step mulCost
        (t0 + printCost + allocCost + duration) (t0 + printCost + allocCost)
        { dtype := .float32, rows := size.toNat, cols := size.toNat, data := fA }
        { dtype := .float32, rows := size.toNat, cols := size.toNat, data := fB }
      omega
    · exact stressLoop_time_le gpu_stress_step mulCost
        (t0 + printCost + allocCost + duration) (t0 + printCost + allocCost)
        { dtype := .float32, rows := size.toNat, cols := size.toNat, data := fA }
        { dtype := .float32, rows := size.toNat, cols := size.toNat, data := fB }
        eps he (by omega)

/-- Claim C2 (amended) witness: with size 1, duration 1, start time 0, zero
setup costs and every iteration taking 1 tick, both workers return between
time 1 and time 2, with deadline 1. -/
theorem bounded_overrun_amended_witness :
    (deadlineOf (cpu_stress 1 1 0 0 0 zcost zfill zfill) =
        some ((0 : Int) + (0 : Nat) + (0 : Nat) + 1) ∧
      ∃ rt, retTimeOf (cpu_stress 1 1 0 0 0 zcost zfill zfill) = some rt ∧
        (0 : Int) + 1 ≤ rt ∧
        rt ≤ (0 : Int) + (0 : Nat) + (0 : Nat) + 1 + (1 : Nat)) ∧
    (deadlineOf (gpu_stress 1 1 false 0 0 0 zcost zfill zfill) =
        some ((0 : Int) + (0 : Nat) + (0 : Nat) + 1) ∧
      ∃ rt, retTimeOf (gpu_stress 1 1 false 0 0 0 zcost zfill zfill) = some rt ∧
        (0 : Int) + 1 ≤ rt ∧
        rt ≤ (0 : Int) + (0 : Nat) + (0 : Nat) + 1 + (1 : Nat)) :=
  bounded_overrun_amended 1 1 0 0 0 1 zcost zfill zfill false (by decide)
    (by decide) (fun _ => le_refl 1)

/-- Claim C3 counterexample: with configured side length S = 0 the claim
demands an invalid-argument allocation failure, but both `np.random.rand` and
`tf.random.normal` accept zero dimensions: each worker's allocation succeeds
(the run is not an error) and the worker proceeds into its multiply loop,
executing one iteration for duration 1. -/
theorem zero_size_proceeds_cex :
    isOkRun (cpu_stress 0 1 0 0 0 zcost zfill zfill) = true ∧
    iterationsOf (cpu_stress 0 1 0 0 0 zcost zfill zfill) = some 1 ∧
    isOkRun (gpu_stress 0 1 false 0 0 0 zcost zfill zfill) = true ∧
    iterationsOf (gpu_stress 0 1 false 0 0 0 zcost zfill zfill) = some 1 := by
  refine ⟨?_, ?_, ?_, ?_⟩ <;> decide

/-- Claim C3 (amended): if the configured side length S is negative, matrix
allocation fails with a clear invalid-argument error and the worker never
reaches its multiply loop; if S is zero, allocation succeeds with an empty
0×0 matrix and the worker proceeds to its multiply loop. -/
theorem negative_size_alloc_error (size duration t0 : Int)
    (printCost allocCost : Nat) (mulCost : Nat → Nat)
    (fA fB : Nat → Nat → ℚ) (avail : Bool) (hneg : size < 0) :
    cpu_stress size duration t0 printCost allocCost mulCost fA fB =
      .error NEG_DIM_MSG ∧
    gpu_stress size duration avail t0 printCost allocCost mulCost fA fB =
      .error TF_NEG_DIM_MSG := by
  have hA : np_random_rand size size fA = .error NEG_DIM_MSG := by
    unfold np_random_rand
    rw [if_pos (Or.inl hneg)]
  have hG : tf_random_normal size size fA = .error TF_NEG_DIM_MSG := by
    unfold tf_random_normal
    rw [if_pos (Or.inl hneg)]
  constructor
  · unfold cpu_stress
    rw [hA]
    cases np_random_rand size size fB <;> rfl
  · unfold gpu_stress
    rw [hG]
    cases tf_random_normal size size fB <;> rfl

/-- Claim C3 (amended) witness: at the concrete side length -1 both workers
fail with the invalid-argument allocation error. -/
theorem negative_size_alloc_error_witness :
    cpu_stress (-1) 1 0 0 0 zcost zfill zfill = .error NEG_DIM_MSG ∧
    gpu_stress (-1) 1 false 0 0 0 zcost zfill zfill = .error TF_NEG_DIM_MSG :=
  negative_size_alloc_error (-1) 1 0 0 0 zcost zfill zfill false (by decide)

/-- Claim C9: with a zero or negative configured duration, each worker still
allocates its two matrices and prints its start message, executes the multiply
loop body zero times (the deadline is not in the future at the first check),
and returns immediately, at the time its setup finished. -/
theorem nonpositive_duration_zero_iters (size duration t0 : Int)
    (printCost allocCost : Nat) (mulCost : Nat → Nat)
    (fA fB : Nat → Nat → ℚ) (avail : Bool) (hs : 0 ≤ size)
    (hd : duration ≤ 0) :
    (iterationsOf (cpu_stress size duration t0 printCost allocCost mulCost fA fB) =
        some 0 ∧
      printedOf (cpu_stress size duration t0 printCost allocCost mulCost fA fB) =
        [CPU_START_MSG] ∧
      (tensorsOf (cpu_stress size duration t0 printCost allocCost mulCost fA fB)).length =
        2 ∧
      retTimeOf (cpu_stress size duration t0 printCost allocCost mulCost fA fB) =
        some (t0 + printCost + allocCost)) ∧
    (iterationsOf (gpu_stress size duration avail t0 printCost allocCost mulCost fA fB) =
        some 0 ∧
      printedOf (gpu_stress size duration avail t0 printCost allocCost mulCost fA fB) =
        [GPU_START_MSG] ∧
      (tensorsOf (gpu_stress size duration avail t0 printCost allocCost mulCost fA fB)).length =
        2 ∧
      retTimeOf (gpu_stress size duration avail t0 printCost allocCost mulCost fA fB) =
        some (t0 + printCost + allocCost)) := by
  constructor
  · rw [cpu_stress_eq size duration t0 printCost allocCost mulCost fA fB hs,
      stressLoop_of_nonpos np_dot mulCost
        (t0 + printCost + allocCost + duration) (t0 + printCost + allocCost)
        { dtype := .float64, rows := size.toNat, cols := size.toNat, data := fA }
        { dtype := .float64, rows := size.toNat, cols := size.toNat, data := fB }
        (by omega)]
    exact ⟨rfl, rfl, rfl, rfl⟩
  · rw [gpu_stress_eq size duration avail t0 printCost allocCost mulCost fA fB hs,
      stressLoop_of_nonpos gpu_stress_step mulCost
        (t0 + printCost + allocCost + duration) (t0 + printCost + allocCost)
        { dtype := .float32, rows := size.toNat, cols := size.toNat, data := fA }
        { dtype := .float32, rows := size.toNat, cols := size.toNat, data := fB }
        (by omega)]
    exact ⟨rfl, rfl, rfl, rfl⟩

/-- Claim C9 witness: with size 1, duration 0, start time 0, print cost 1 and
allocation cost 2, both workers run zero iterations and return at time 3. -/
theorem nonpositive_duration_zero_iters_witness :
    (iterationsOf (cpu_stress 1 0 0 1 2 zcost zfill zfill) = some 0 ∧
      printedOf (cpu_stress 1 0 0 1 2 zcost zfill zfill) = [CPU_START_MSG] ∧
      (tensorsOf (cpu_stress 1 0 0 1 2 zcost zfill zfill)).length = 2 ∧
      retTimeOf (cpu_stress 1 0 0 1 2 zcost zfill zfill) =
        some ((0 : Int) + (1 : Nat) + (2 : Nat))) ∧
    (iterationsOf (gpu_stress 1 0 false 0 1 2 zcost zfill zfill) = some 0 ∧
      printedOf (gpu_stress 1 0 false 0 1 2 zcost zfill zfill) = [GPU_START_MSG] ∧
      (tensorsOf (gpu_stress 1 0 false 0 1 2 zcost zfill zfill)).length = 2 ∧
      retTimeOf (gpu_stress 1 0 false 0 1 2 zcost zfill zfill) =
        some ((0 : Int) + (1 : Nat) + (2 : Nat))) :=
  nonpositive_duration_zero_iters 1 0 0 1 2 zcost zfill zfill false (by decide)
    (by decide)

/-- Claim C10: each worker computes its deadline (current time + duration)
only after its matrices have been allocated — the loop is entered at
`t0 + printCost + allocCost` and the deadline is that time plus the duration —
so setup time is excluded from the stress duration and the worker spends at
least `duration` of clock time inside the multiply loop itself. -/
theorem deadline_after_alloc (size duration t0 : Int)
    (printCost allocCost : Nat) (mulCost : Nat → Nat)
    (fA fB : Nat → Nat → ℚ) (avail : Bool) (hs : 0 ≤ size) :
    (loopStartOf (cpu_stress size duration t0 printCost allocCost mulCost fA fB) =
        some (t0 + printCost + allocCost) ∧
      deadlineOf (cpu_stress size duration t0 printCost allocCost mulCost fA fB) =
        some (t0 + printCost + allocCost + duration) ∧
      ∃ rt, retTimeOf (cpu_stress size duration t0 printCost allocCost mulCost fA fB) =
          some rt ∧ t0 + printCost + allocCost + duration ≤ rt) ∧
    (loopStartOf (gpu_stress size duration avail t0 printCost allocCost mulCost fA fB) =
        some (t0 + printCost + allocCost) ∧
      deadlineOf (gpu_stress size duration avail t0 printCost allocCost mulCost fA fB) =
        some (t0 + printCost + allocCost + duration) ∧
      ∃ rt, retTimeOf (gpu_stress size duration avail t0 printCost allocCost mulCost fA fB) =
          some rt ∧ t0 + printCost + allocCost + duration ≤ rt) := by
  constructor
  · rw [cpu_stress_eq size duration t0 printCost allocCost mulCost fA fB hs]
    exact ⟨rfl, rfl, _, rfl,
      stressLoop_time_ge np_dot mulCost
        (t0 + printCost + allocCost + duration) (t0 + printCost + allocCost)
        { dtype := .float64, rows := size.toNat, cols := size.toNat, data := fA }
        { dtype := .float64, rows := size.toNat, cols := size.toNat, data := fB }⟩
  · rw [gpu_stress_eq size duration avail t0 printCost allocCost mulCost fA fB hs]
    exact ⟨rfl, rfl, _, rfl,
      stressLoop_time_ge gpu_stress_step mulCost
        (t0 + printCost + allocCost + duration) (t0 + printCost + allocCost)
        { dtype := .float32, rows := size.toNat, cols := size.toNat, data := fA }
        { dtype := .float32, rows := size.toNat, cols := size.toNat, data := fB }⟩

/-- Claim C10 witness: with size 1, duration 2, start time 0, print cost 1 and
allocation cost 1, both workers enter the loop at time 2, have deadline 4, and
return no earlier than time 4. -/
theorem deadline_after_alloc_witness :
    (loopStartOf (cpu_stress 1 2 0 1 1 zcost zfill zfill) =
        some ((0 : Int) + (1 : Nat) + (1 : Nat)) ∧
      deadlineOf (cpu_stress 1 2 0 1 1 zcost zfill zfill) =
        some ((0 : Int) + (1 : Nat) + (1 : Nat) + 2) ∧
      ∃ rt, retTimeOf (cpu_stress 1 2 0 1 1 zcost zfill zfill) = some rt ∧
        (0 : Int) + (1 : Nat) + (1 : Nat) + 2 ≤ rt) ∧
    (loopStartOf (gpu_stress 1 2 false 0 1 1 zcost zfill zfill) =
        some ((0 : Int) + (1 : Nat) + (1 : Nat)) ∧
      deadlineOf (gpu_stress 1 2 false 0 1 1 zcost zfill zfill) =
        some ((0 : Int) + (1 : Nat) + (1 : Nat) + 2) ∧
      ∃ rt, retTimeOf (gpu_stress 1 2 false 0 1 1 zcost zfill zfill) = some rt ∧
        (0 : Int) + (1 : Nat) + (1 : Nat) + 2 ≤ rt) :=
  deadline_after_alloc 1 2 0 1 1 zcost zfill zfill false (by decide)

/-- Claim C5: each worker allocates its two matrices exactly once at startup
(the allocation log is exactly `[ta, tb]`), fills them with its random values
(`ta.data = fA`, `tb.data = fB`), and never mutates them — after the whole
multiply loop the worker still holds exactly the matrices it allocated.
Moreover no data is shared across workers: a worker's run depends only on its
own private slice of the environment, so changing any other worker's inputs
cannot change it. -/
theorem matrices_private_immutable (size duration t0 : Int)
    (printCost allocCost : Nat) (mulCost : Nat → Nat)
    (fA fB : Nat → Nat → ℚ) (avail : Bool) (hs : 0 ≤ size) :
    (∃ ta tb, np_random_rand size size fA = .ok ta ∧
      np_random_rand size size fB = .ok tb ∧ ta.data = fA ∧ tb.data = fB ∧
      tensorsOf (cpu_stress size duration t0 printCost allocCost mulCost fA fB) =
        [ta, tb] ∧
      finalPairOf (cpu_stress size duration t0 printCost allocCost mulCost fA fB) =
        some (ta, tb)) ∧
    (∃ ta tb, tf_random_normal size size fA = .ok ta ∧
      tf_random_normal size size fB = .ok tb ∧ ta.data = fA ∧ tb.data = fB ∧
      tensorsOf (gpu_stress size duration avail t0 printCost allocCost mulCost fA fB) =
        [ta, tb] ∧
      finalPairOf (gpu_stress size duration avail t0 printCost allocCost mulCost fA fB) =
        some (ta, tb)) ∧
    (∀ env env' w, agreesAt env env' w → worker_run env w = worker_run env' w) := by
  refine ⟨?_, ?_, ?_⟩
  · have hab := stressLoop_ab np_dot mulCost
      (t0 + printCost + allocCost + duration) (t0 + printCost + allocCost)
      { dtype := .float64, rows := size.toNat, cols := size.toNat, data := fA }
      { dtype := .float64, rows := size.toNat, cols := size.toNat, data := fB }
    refine ⟨{ dtype := .float64, rows := size.toNat, cols := size.toNat, data := fA },
      { dtype := .float64, rows := size.toNat, cols := size.toNat, data := fB },
      np_random_rand_ok size size fA hs hs, np_random_rand_ok size size fB hs hs,
      rfl, rfl, ?_, ?_⟩
    · rw [cpu_stress_eq size duration t0 printCost allocCost mulCost fA fB hs]
      rfl
    · rw [cpu_stress_eq size duration t0 printCost allocCost mulCost fA fB hs]
      simp only [finalPairOf]
      rw [hab]
  · have hab := stressLoop_ab gpu_stress_step mulCost
      (t0 + printCost + allocCost + duration) (t0 + printCost + allocCost)
      { dtype := .float32, rows := size.toNat, cols := size.toNat, data := fA }
      { dtype := .float32, rows := size.toNat, cols := size.toNat, data := fB }
    refine ⟨{ dtype := .float32, rows := size.toNat, cols := size.toNat, data := fA },
      { dtype := .float32, rows := size.toNat, cols := size.toNat, data := fB },
      tf_random_normal_ok size size fA hs hs, tf_random_normal_ok size size fB hs hs,
      rfl, rfl, ?_, ?_⟩
    · rw [gpu_stress_eq size duration avail t0 printCost allocCost mulCost fA fB hs]
      rfl
    · rw [gpu_stress_eq size duration avail t0 printCost allocCost mulCost fA fB hs]
      simp only [finalPairOf]
      rw [hab]
  · intro env env' w hag
    obtain ⟨h1, h2, h3, h4, h5, h6, h7⟩ := hag
    unfold worker_run
    rw [h1, h2, h3, h4, h5, h6, h7]

/-- Claim C5 witness: instantiation at size 1 with concrete fills; both
workers allocate exactly their two matrices and still hold them at the end,
and worker runs are independent of other workers' environment slices. -/
theorem matrices_private_immutable_witness :
    (∃ ta tb, np_random_rand 1 1 zfill = .ok ta ∧
      np_random_rand 1 1 zfill = .ok tb ∧ ta.data = zfill ∧ tb.data = zfill ∧
      tensorsOf (cpu_stress 1 1 0 0 0 zcost zfill zfill) = [ta, tb] ∧
      finalPairOf (cpu_stress 1 1 0 0 0 zcost zfill zfill) = some (ta, tb)) ∧
    (∃ ta tb, tf_random_normal 1 1 zfill = .ok ta ∧
      tf_random_normal 1 1 zfill = .ok tb ∧ ta.data = zfill ∧ tb.data = zfill ∧
      tensorsOf (gpu_stress 1 1 false 0 0 0 zcost zfill zfill) = [ta, tb] ∧
      finalPairOf (gpu_stress 1 1 false 0 0 0 zcost zfill zfill) = some (ta, tb)) ∧
    (∀ env env' w, agreesAt env env' w → worker_run env w = worker_run env' w) :=
  matrices_private_immutable 1 1 0 0 0 zcost zfill zfill false (by decide)

/-- Claim C1: the coordinator launches exactly `NUM_CPU_THREADS` CPU workers
and 1 GPU worker (its trace has `NUM_CPU_THREADS + 1` spawn events), each
launched worker is joined, each join strictly precedes the completion print in
the coordinator's program order, and the coordinator's return time is no
earlier than every worker's completion time. -/
theorem coordinator_joins_all (env : Env) (w : Nat)
    (hw : w < NUM_CPU_THREADS + 1) :
    (main_run env).coordEvents.countP isSpawnEv = NUM_CPU_THREADS + 1 ∧
    joinEv w ∈ (main_run env).coordEvents ∧
    (main_run env).coordEvents.indexOf (spawnEv w) <
      (main_run env).coordEvents.indexOf (joinEv w) ∧
    (main_run env).coordEvents.indexOf (joinEv w) <
      (main_run env).coordEvents.indexOf CoordEvent.printDone ∧
    workerReturn env w ≤ (main_run env).returnTime := by
  have hret : workerReturn env w ≤ (main_run env).returnTime :=
    le_foldl_max_of_mem (workerReturn env) (List.mem_range.mpr hw) env.t0
  have hw5 : w < 5 := hw
  have hevents : joinEv w ∈ main_events ∧
      main_events.indexOf (spawnEv w) < main_events.indexOf (joinEv w) ∧
      main_events.indexOf (joinEv w) <
        main_events.indexOf CoordEvent.printDone := by
    interval_cases w <;> exact ⟨by decide, by decide, by decide⟩
  have hcount : main_events.countP isSpawnEv = NUM_CPU_THREADS + 1 := by decide
  exact ⟨hcount, hevents.1, hevents.2.1, hevents.2.2, hret⟩

/-- Claim C1 witness: instantiation for the GPU worker (index
`NUM_CPU_THREADS`) in a concrete environment. -/
theorem coordinator_joins_all_witness :
    (main_run envEx).coordEvents.countP isSpawnEv = NUM_CPU_THREADS + 1 ∧
    joinEv 4 ∈ (main_run envEx).coordEvents ∧
    (main_run envEx).coordEvents.indexOf (spawnEv 4) <
      (main_run envEx).coordEvents.indexOf (joinEv 4) ∧
    (main_run envEx).coordEvents.indexOf (joinEv 4) <
      (main_run envEx).coordEvents.indexOf CoordEvent.printDone ∧
    workerReturn envEx 4 ≤ (main_run envEx).returnTime :=
  coordinator_joins_all envEx 4 (by decide)

/-- Claim C8: the program's stdout starts with the overall start banner, ends
with the single completion message printed after all workers are joined,
contains one CPU start message per CPU worker and one GPU start message, and
the process exit code is 0 (no non-zero exit path exists). -/
theorem stdout_and_exit (env : Env) :
    (main_run env).stdout.head? = some START_MSG ∧
    (main_run env).stdout.getLast? = some DONE_MSG ∧
    (main_run env).stdout.count CPU_START_MSG = NUM_CPU_THREADS ∧
    (main_run env).stdout.count GPU_START_MSG = 1 ∧
    (main_run env).stdout.count START_MSG = 1 ∧
    (main_run env).stdout.count DONE_MSG = 1 ∧
    (main_run env).exitCode = 0 :=
  ⟨rfl, rfl, rfl, rfl, rfl, rfl, rfl⟩
